import Mathlib

set_option autoImplicit false

/-!
Shallow embedding of `cloudify_agent/api/pm/base.py` (class `Daemon`):
parameter validation, defaulting, plugin registration and the
start/stop lifecycle with its polling loop, queue cleanup and
crash-dump consultation.

Python dynamic values that flow through the daemon parameters are
modelled by `PyVal` (None, int, str, list-of-str), with Python
truthiness, `str()`, `isdigit()` and `int()` reproduced on that type.
-/

namespace CloudifyAgent

/-- Python values that appear in the daemon parameter bag. -/
inductive PyVal where
  | vnone
  | vint (n : ℤ)
  | vstr (s : String)
  | vlist (l : List String)
deriving Repr, DecidableEq

/-- Python truthiness: `bool(v)`. -/
def PyVal.truthy : PyVal → Bool
  | .vnone => false
  | .vint n => n != 0
  | .vstr s => s != ""
  | .vlist l => !l.isEmpty

/-- Result of `params.get(key)`: the value when present, Python `None` otherwise. -/
def pyGet (v : Option PyVal) : PyVal := v.getD .vnone

/-- Python `v or d`: `v` when truthy, else `d`. -/
def pyOr (v d : PyVal) : PyVal := if v.truthy then v else d

/-- Python `str(v)` as used in `format` interpolation. -/
def pyStr : PyVal → String
  | .vnone => "None"
  | .vint n => toString n
  | .vstr s => s
  | .vlist l => toString l

/-- Python `str(v).isdigit()`.  For an int this holds exactly when the int is
nonnegative (the decimal representation of a negative int starts with a minus
sign); for a str it is the usual nonempty-all-digits test; for None or a list
the representation contains non-digit characters. -/
def pyIsDigit : PyVal → Bool
  | .vint n => decide (0 ≤ n)
  | .vstr s => !s.isEmpty && s.toList.all Char.isDigit
  | .vnone => false
  | .vlist _ => false

/-- Python `int(v)` on values for which `str(v).isdigit()` holds: identity on
ints, decimal value of a digit string. -/
def pyToInt : PyVal → ℤ
  | .vint n => n
  | .vstr s => ((s.toNat?).getD 0 : ℤ)
  | .vnone => 0
  | .vlist _ => 0

/-- Python `type(v)` rendered as in the ValueError message of the constructor. -/
def pyTypeName : PyVal → String
  | .vnone => "NoneType"
  | .vint _ => "int"
  | .vstr _ => "str"
  | .vlist _ => "list"

/-- Errors raised by the daemon base class. -/
inductive DaemonError where
  | missingMandatoryProperty (param : String)
  | daemonPropertiesError (msg : String)
  | valueError (msg : String)
deriving Repr, DecidableEq

/-- The caller-supplied parameter bag (`**params`); `none` means the key is
absent from the dict. -/
structure Params where
  manager_ip : Option PyVal := none
  user : Option PyVal := none
  broker_ip : Option PyVal := none
  broker_port : Option PyVal := none
  name : Option PyVal := none
  queue : Option PyVal := none
  broker_url : Option PyVal := none
  manager_port : Option PyVal := none
  min_workers : Option PyVal := none
  max_workers : Option PyVal := none
  workdir : Option PyVal := none
  plugins : Option PyVal := none
  extra_env_path : Option PyVal := none
deriving Repr, DecidableEq

/-- Python `key in params` for the keys the daemon reads. -/
def paramContains (p : Params) : String → Bool
  | "manager_ip" => p.manager_ip.isSome
  | "user" => p.user.isSome
  | "broker_ip" => p.broker_ip.isSome
  | "broker_port" => p.broker_port.isSome
  | "name" => p.name.isSome
  | "queue" => p.queue.isSome
  | "broker_url" => p.broker_url.isSome
  | "manager_port" => p.manager_port.isSome
  | "min_workers" => p.min_workers.isSome
  | "max_workers" => p.max_workers.isSome
  | "workdir" => p.workdir.isSome
  | "plugins" => p.plugins.isSome
  | "extra_env_path" => p.extra_env_path.isSome
  | _ => false

/-- `Daemon.MANDATORY_PARAMS` of the base class. -/
def MANDATORY_PARAMS : List String := ["manager_ip"]

/-- `Daemon.validate_mandatory`: raises `DaemonMissingMandatoryPropertyError`
on the first mandatory key absent from the bag. -/
def validate_mandatory (params : Params) : Except DaemonError Unit :=
  match MANDATORY_PARAMS.find? (fun param => !paramContains params param) with
  | some param => .error (.missingMandatoryProperty param)
  | none => .ok ()

/-- `Daemon.validate_optional`: each of `min_workers` and `max_workers`, when
truthy, must satisfy `str(v).isdigit()` and is then rebound to `int(v)`; when
both rebound values are truthy, `min_workers > max_workers` is rejected. -/
def validate_optional (params : Params) : Except DaemonError Unit :=
  let min_workers := pyGet params.min_workers
  let max_workers := pyGet params.max_workers
  match (if min_workers.truthy then
           (if !pyIsDigit min_workers then
              Except.error (DaemonError.daemonPropertiesError
                ("min_workers is supposed to be a number but is: "
                  ++ pyStr min_workers))
            else Except.ok (PyVal.vint (pyToInt min_workers)))
         else Except.ok min_workers) with
  | .error e => .error e
  | .ok min_workers =>
    match (if max_workers.truthy then
             (if !pyIsDigit max_workers then
                Except.error (DaemonError.daemonPropertiesError
                  ("max_workers is supposed to be a number but is: "
                    ++ pyStr max_workers))
              else Except.ok (PyVal.vint (pyToInt max_workers)))
           else Except.ok max_workers) with
    | .error e => .error e
    | .ok max_workers =>
      if min_workers.truthy && max_workers.truthy then
        if pyToInt min_workers > pyToInt max_workers then
          .error (.daemonPropertiesError
            ("min_workers cannot be greater than max_workers [min_workers="
              ++ pyStr min_workers ++ ", max_workers=" ++ pyStr max_workers
              ++ "]"))
        else .ok ()
      else .ok ()

/-- Modelled from the spec: `defaults.BROKER_PORT` (the `defaults` module is
not under src); the constructor docstring fixes it at 5672. -/
def BROKER_PORT : ℤ := 5672

/-- Modelled from the spec: `defaults.MANAGER_PORT`; the constructor docstring
fixes it at 80. -/
def MANAGER_PORT : ℤ := 80

/-- Modelled from the spec: `defaults.MIN_WORKERS`; the constructor docstring
fixes the default minimum worker count at 0. -/
def MIN_WORKERS : ℤ := 0

/-- Modelled from the spec: `defaults.MAX_WORKERS`; the constructor docstring
fixes the default maximum worker count at 5. -/
def MAX_WORKERS : ℤ := 5

/-- Modelled from the spec: `defaults.BROKER_URL.format(broker_ip,
broker_port)`; the constructor docstring gives the template
`amqp://guest:guest@<broker_ip>:<broker_port>//`. -/
def brokerUrlFormat (ip port : PyVal) : String :=
  "amqp://guest:guest@" ++ pyStr ip ++ ":" ++ pyStr port ++ "//"

/-- Ambient environment consulted by the constructor: `getpass.getuser()`,
`utils.generate_agent_name()` and `os.getcwd()` results. -/
structure InitEnv where
  currentUser : String
  generatedName : String
  cwd : String
deriving Repr, DecidableEq

/-- The configuration model built by `Daemon.__init__` (the persisted
attributes; the logger, command runner and celery client are runtime
collaborators carrying no configuration state of their own). -/
structure DaemonState where
  manager_ip : PyVal
  user : PyVal
  broker_ip : PyVal
  broker_port : PyVal
  name : PyVal
  queue : PyVal
  broker_url : PyVal
  manager_port : PyVal
  min_workers : PyVal
  max_workers : PyVal
  workdir : PyVal
  plugins : List String
  extra_env_path : PyVal
deriving Repr, DecidableEq

/-- Helper for `pySplitComma`: walk the characters, cutting at each comma. -/
def splitCommaAux : List Char → List Char → List String
  | [], acc => [String.mk acc.reverse]
  | c :: cs, acc =>
    if c = ',' then String.mk acc.reverse :: splitCommaAux cs []
    else splitCommaAux cs (c :: acc)

/-- Python `s.split(",")` on a string: the comma-separated pieces, empty
pieces included. -/
def pySplitComma (s : String) : List String := splitCommaAux s.toList []

/-- The plugins-parameter handling of the constructor: a truthy str is split
on commas, a truthy list is taken as-is, any other truthy value raises
ValueError; a falsy value yields the empty list. -/
def parsePlugins (v : PyVal) : Except DaemonError (List String) :=
  if v.truthy then
    match v with
    | .vstr s => .ok (pySplitComma s)
    | .vlist l => .ok l
    | other => .error (.valueError
        ("Unexpected type of attribute plugins. Expected either str or list, but got: "
          ++ pyTypeName other))
  else .ok []

/-- The included-plugins loop of the constructor: append each built-in plugin
not already present, in order. -/
def addIncludedPlugins (plugins included_plugins : List String) : List String :=
  included_plugins.foldl
    (fun acc included_plugin =>
      if included_plugin ∈ acc then acc else acc ++ [included_plugin])
    plugins

/-- `Daemon.__init__`: mandatory validation, optional validation, `or`-based
defaulting of every optional parameter, plugins parsing and built-in plugin
appending.  `included_plugins` is a parameter because the
`cloudify_agent.included_plugins` module is not under src; the spec only fixes
that it is one constant list.  The `os.makedirs` call for a missing workdir is
filesystem I/O with no effect on the configuration model and is not part of
the state built here. -/
def daemonInit (env : InitEnv) (included_plugins : List String)
    (params : Params) : Except DaemonError DaemonState :=
  match validate_mandatory params with
  | .error e => .error e
  | .ok _ =>
  let manager_ip := pyGet params.manager_ip
  match validate_optional params with
  | .error e => .error e
  | .ok _ =>
  let user := pyOr (pyGet params.user) (.vstr env.currentUser)
  let broker_ip := pyOr (pyGet params.broker_ip) manager_ip
  let broker_port := pyOr (pyGet params.broker_port) (.vint BROKER_PORT)
  let name := pyOr (pyGet params.name) (.vstr env.generatedName)
  let queue := pyOr (pyGet params.queue) (.vstr (pyStr name ++ "-queue"))
  let broker_url := pyOr (pyGet params.broker_url)
    (.vstr (brokerUrlFormat broker_ip broker_port))
  let manager_port := pyOr (pyGet params.manager_port) (.vint MANAGER_PORT)
  let min_workers := pyOr (pyGet params.min_workers) (.vint MIN_WORKERS)
  let max_workers := pyOr (pyGet params.max_workers) (.vint MAX_WORKERS)
  let workdir := pyOr (pyGet params.workdir) (.vstr env.cwd)
  match parsePlugins (pyGet params.plugins) with
  | .error e => .error e
  | .ok plugins0 =>
  let plugins := addIncludedPlugins plugins0 included_plugins
  let extra_env_path := pyGet params.extra_env_path
  .ok {
    manager_ip := manager_ip
    user := user
    broker_ip := broker_ip
    broker_port := broker_port
    name := name
    queue := queue
    broker_url := broker_url
    manager_port := manager_port
    min_workers := min_workers
    max_workers := max_workers
    workdir := workdir
    plugins := plugins
    extra_env_path := extra_env_path }

/-!
Plugin registration (`Daemon.register`).  The plugin-module listing
(`utils.list_plugin_files`) and the process-management-specific
`update_includes` are external collaborators, modelled as fallible
functions supplied by the environment; `DaemonFactory.save` is modelled
by appending the plugin list persisted by each call to a save log.
-/

/-- External collaborators of `Daemon.register`. -/
structure RegisterEnv where
  list_plugin_files : String → Except String (List String)
  update_includes : List String → Except String Unit

/-- Mutable state touched by `Daemon.register`: the plugins attribute and the
log of `DaemonFactory.save` calls (each entry is the plugins list at the time
of the save). -/
structure RegState where
  plugins : List String
  saves : List (List String)
deriving Repr, DecidableEq

/-- `Daemon.register`: list the plugin modules, update the includes, append
the plugin when not already present, then save.  An exception from either
collaborator propagates, leaving the state untouched. -/
def register (env : RegisterEnv) (plugin : String) (s : RegState) :
    RegState × Option String :=
  match env.list_plugin_files plugin with
  | .error e => (s, some e)
  | .ok tasks =>
    match env.update_includes tasks with
    | .error e => (s, some e)
    | .ok _ =>
      let plugins :=
        if plugin ∈ s.plugins then s.plugins else s.plugins ++ [plugin]
      ({ plugins := plugins, saves := s.saves ++ [plugins] }, none)

/-!
Queue cleanup (`Daemon._delete_amqp_queues`) and the start protocol
(`Daemon.start` with `Daemon._verify_no_celery_error`).  Broker calls
are modelled by an environment recording which of them raise; the
wall clock is an integer timeline: `time.time()` at the moment
`end_time` is computed is taken as instant 0, each probe consumes a
nonnegative duration supplied by the environment and each sleep
consumes `interval`.
-/

/-- Outcomes of the broker calls inside `_delete_amqp_queues`: `none` means
the call returns normally, `some e` that it raises `e`. -/
structure AmqpEnv where
  createErr : Option String := none
  channelErr : Option String := none
  queueDeleteErr : Option String := none
  pidboxDeleteErr : Option String := none
  closeErr : Option String := none
deriving Repr, DecidableEq

/-- Result of `_delete_amqp_queues`: the exception propagating to the caller,
when any, and the warnings logged. -/
structure AmqpResult where
  raised : Option String
  warnings : List String
deriving Repr, DecidableEq

/-- `Daemon._delete_amqp_queues`: create the client (a failure here skips the
try/finally entirely); in the try body open a channel and delete the queue and
its pidbox queue, the first exception aborting the body; in the finally clause
close the client, downgrading only a close failure to a warning.  An exception
from the body propagates after the finally clause runs. -/
def delete_amqp_queues (env : AmqpEnv) : AmqpResult :=
  match env.createErr with
  | some e => { raised := some e, warnings := [] }
  | none =>
    let bodyErr : Option String :=
      match env.channelErr with
      | some e => some e
      | none =>
        match env.queueDeleteErr with
        | some e => some e
        | none => env.pidboxDeleteErr
    let warnings : List String :=
      match env.closeErr with
      | some e => ["Failed closing amqp client: " ++ e]
      | none => []
    { raised := bodyErr, warnings := warnings }

/-- Environment of the start polling loop: the result and duration of the k-th
liveness probe (`utils.get_agent_stats`), and the clock advance between the
computation of `end_time` and the first check of the while condition. -/
structure StartEnv where
  stats : ℕ → Bool
  probeDur : ℕ → ℕ
  initialGap : ℕ := 0

/-- What `Daemon.start` does after issuing the start command: either an
observation of liveness (success), or the crash-dump consultation followed by
a `DaemonStartupTimeout`/`DaemonException` raise. -/
inductive StartOutcome where
  | success
  | daemonException (dump : String)
  | startupTimeout (timeout : ℤ) (name : String)
  | amqpError (e : String)
deriving Repr, DecidableEq

/-- Observable record of one `Daemon.start` invocation. -/
structure StartRun where
  outcome : StartOutcome
  probes : ℕ
  sleeps : ℕ
  crashChecked : Bool
  crashDumpAfter : Option String
  startCommandRan : Bool
deriving Repr, DecidableEq

/-- The while loop of `Daemon.start`: at clock `t` with `k` probes already
issued, re-check `time.time() < end_time`; inside the body probe, return on
stats, otherwise sleep `interval` and loop.  Each probe advances the clock by
its duration.  `fuel` bounds the number of iterations modelled; `none` means
the bound was hit before the loop exited.  The result is (liveness observed,
probes issued, sleeps performed). -/
def startLoop (env : StartEnv) (interval : ℕ) (endTime : ℤ) :
    ℤ → ℕ → ℕ → Option (Bool × ℕ × ℕ)
  | _, _, 0 => none
  | t, k, fuel + 1 =>
    if t < endTime then
      if env.stats k then some (true, k + 1, k)
      else
        startLoop env interval endTime
          (t + (env.probeDur k : ℤ) + (interval : ℤ)) (k + 1) fuel
    else some (false, k, k)

/-- `Daemon._verify_no_celery_error`: when the crash-dump file
`<storage>/<name>.err` exists, read it, delete it and raise a
`DaemonException` carrying its contents; otherwise return normally.  The file
is modelled by `crashDump : Option String`; the result is the file state
afterwards and the raised payload, when any. -/
def verify_no_celery_error (crashDump : Option String) :
    Option String × Option String :=
  match crashDump with
  | some error => (none, some error)
  | none => (none, none)

/-- `Daemon.start`: optionally run queue cleanup (an exception from it aborts
start before the start command); run the start command; compute
`end_time = time.time() + timeout` and poll liveness until observed or the
deadline passes; on deadline expiry consult the crash dump and raise
`DaemonException` with its contents when present, else raise
`DaemonStartupTimeout` carrying the timeout and the daemon name. -/
def start (aenv : AmqpEnv) (env : StartEnv) (name : String)
    (interval : ℕ) (timeout : ℤ) (delete_amqp_queue : Bool)
    (crashDump : Option String) (fuel : ℕ) : Option StartRun :=
  match (if delete_amqp_queue then (delete_amqp_queues aenv).raised
         else none) with
  | some e => some
      { outcome := .amqpError e, probes := 0, sleeps := 0
        crashChecked := false, crashDumpAfter := crashDump
        startCommandRan := false }
  | none =>
    match startLoop env interval (0 + timeout) (env.initialGap : ℤ) 0 fuel with
    | none => none
    | some (true, p, s) => some
        { outcome := .success, probes := p, sleeps := s
          crashChecked := false, crashDumpAfter := crashDump
          startCommandRan := true }
    | some (false, p, s) =>
      match verify_no_celery_error crashDump with
      | (dumpAfter, some error) => some
          { outcome := .daemonException error, probes := p, sleeps := s
            crashChecked := true, crashDumpAfter := dumpAfter
            startCommandRan := true }
      | (dumpAfter, none) => some
          { outcome := .startupTimeout timeout name, probes := p, sleeps := s
            crashChecked := true, crashDumpAfter := dumpAfter
            startCommandRan := true }

/-!
Helper lemmas shared by the claim theorems.
-/

/-- When both validations and the plugins parsing succeed, `daemonInit`
produces exactly the defaulted record. -/
theorem daemonInit_eq_ok (env : InitEnv) (included_plugins : List String)
    (params : Params) (plugins0 : List String)
    (hm : validate_mandatory params = .ok ())
    (ho : validate_optional params = .ok ())
    (hp : parsePlugins (pyGet params.plugins) = .ok plugins0) :
    daemonInit env included_plugins params = .ok {
      manager_ip := pyGet params.manager_ip
      user := pyOr (pyGet params.user) (.vstr env.currentUser)
      broker_ip := pyOr (pyGet params.broker_ip) (pyGet params.manager_ip)
      broker_port := pyOr (pyGet params.broker_port) (.vint BROKER_PORT)
      name := pyOr (pyGet params.name) (.vstr env.generatedName)
      queue := pyOr (pyGet params.queue)
        (.vstr (pyStr (pyOr (pyGet params.name) (.vstr env.generatedName))
          ++ "-queue"))
      broker_url := pyOr (pyGet params.broker_url)
        (.vstr (brokerUrlFormat
          (pyOr (pyGet params.broker_ip) (pyGet params.manager_ip))
          (pyOr (pyGet params.broker_port) (.vint BROKER_PORT))))
      manager_port := pyOr (pyGet params.manager_port) (.vint MANAGER_PORT)
      min_workers := pyOr (pyGet params.min_workers) (.vint MIN_WORKERS)
      max_workers := pyOr (pyGet params.max_workers) (.vint MAX_WORKERS)
      workdir := pyOr (pyGet params.workdir) (.vstr env.cwd)
      plugins := addIncludedPlugins plugins0 included_plugins
      extra_env_path := pyGet params.extra_env_path } := by
  unfold daemonInit
  rw [hm, ho, hp]

/-- Inversion of a successful `daemonInit`: both validations and the plugins
parsing succeeded and the result is the defaulted record. -/
theorem daemonInit_ok_inv (env : InitEnv) (included_plugins : List String)
    (params : Params) (d : DaemonState)
    (h : daemonInit env included_plugins params = .ok d) :
    validate_mandatory params = .ok ()
    ∧ validate_optional params = .ok ()
    ∧ ∃ plugins0, parsePlugins (pyGet params.plugins) = .ok plugins0
        ∧ d = {
          manager_ip := pyGet params.manager_ip
          user := pyOr (pyGet params.user) (.vstr env.currentUser)
          broker_ip := pyOr (pyGet params.broker_ip) (pyGet params.manager_ip)
          broker_port := pyOr (pyGet params.broker_port) (.vint BROKER_PORT)
          name := pyOr (pyGet params.name) (.vstr env.generatedName)
          queue := pyOr (pyGet params.queue)
            (.vstr (pyStr (pyOr (pyGet params.name) (.vstr env.generatedName))
              ++ "-queue"))
          broker_url := pyOr (pyGet params.broker_url)
            (.vstr (brokerUrlFormat
              (pyOr (pyGet params.broker_ip) (pyGet params.manager_ip))
              (pyOr (pyGet params.broker_port) (.vint BROKER_PORT))))
          manager_port := pyOr (pyGet params.manager_port) (.vint MANAGER_PORT)
          min_workers := pyOr (pyGet params.min_workers) (.vint MIN_WORKERS)
          max_workers := pyOr (pyGet params.max_workers) (.vint MAX_WORKERS)
          workdir := pyOr (pyGet params.workdir) (.vstr env.cwd)
          plugins := addIncludedPlugins plugins0 included_plugins
          extra_env_path := pyGet params.extra_env_path } := by
  have h' := h
  unfold daemonInit at h'
  rcases hm : validate_mandatory params with e | u
  · rw [hm] at h'; cases h'
  cases u
  rw [hm] at h'
  rcases ho : validate_optional params with e | u
  · rw [ho] at h'; cases h'
  cases u
  rw [ho] at h'
  rcases hp : parsePlugins (pyGet params.plugins) with e | plugins0
  · rw [hp] at h'; cases h'
  refine ⟨rfl, rfl, plugins0, rfl, ?_⟩
  have hrec := daemonInit_eq_ok env included_plugins params plugins0 hm ho hp
  rw [h] at hrec
  exact Except.ok.inj hrec

/-- The included-plugins fold only appends: its result extends the initial
plugin list. -/
theorem addIncludedPlugins_extends (included acc : List String) :
    ∃ t, addIncludedPlugins acc included = acc ++ t := by
  induction included generalizing acc with
  | nil => exact ⟨[], by simp [addIncludedPlugins]⟩
  | cons p ps ih =>
    unfold addIncludedPlugins
    simp only [List.foldl_cons]
    by_cases hp : p ∈ acc
    · simpa [addIncludedPlugins, hp] using ih acc
    · rcases ih (acc ++ [p]) with ⟨t, ht⟩
      refine ⟨p :: t, ?_⟩
      simp only [addIncludedPlugins] at ht
      simp [hp, ht]

/-- The initial plugin list survives the included-plugins fold. -/
theorem subset_addIncludedPlugins (included acc : List String) :
    acc ⊆ addIncludedPlugins acc included := by
  rcases addIncludedPlugins_extends included acc with ⟨t, ht⟩
  rw [ht]
  exact List.subset_append_left acc t

/-- Every included plugin is present after the included-plugins fold. -/
theorem mem_addIncludedPlugins (included : List String) {p : String}
    (hp : p ∈ included) : ∀ acc, p ∈ addIncludedPlugins acc included := by
  induction included with
  | nil => cases hp
  | cons q qs ih =>
    intro acc
    unfold addIncludedPlugins
    simp only [List.foldl_cons]
    rcases List.mem_cons.mp hp with hq | hq
    · subst hq
      have hmem : p ∈ (if p ∈ acc then acc else acc ++ [p]) := by
        by_cases hin : p ∈ acc
        · simp [hin]
        · simp [hin]
      exact subset_addIncludedPlugins qs _ hmem
    · exact ih hq _

/-- A plugin already present is never appended again: the fold preserves its
multiplicity. -/
theorem count_addIncludedPlugins_of_mem (included : List String) {p : String} :
    ∀ acc, p ∈ acc →
      (addIncludedPlugins acc included).count p = acc.count p := by
  induction included with
  | nil => intro acc _; simp [addIncludedPlugins]
  | cons q qs ih =>
    intro acc hp
    unfold addIncludedPlugins
    simp only [List.foldl_cons]
    by_cases hq : q ∈ acc
    · simp only [hq, if_true]
      exact ih acc hp
    · simp only [hq, if_false]
      have hpq : p ≠ q := fun h => hq (h ▸ hp)
      have := ih (acc ++ [q]) (List.mem_append_left _ hp)
      simp only [addIncludedPlugins] at this ⊢
      rw [this, List.count_append]
      simp [List.count_singleton, hpq]

/-- An included plugin absent from the initial list ends up with multiplicity
exactly one. -/
theorem count_addIncludedPlugins_of_new (included : List String) {p : String}
    (hin : p ∈ included) :
    ∀ acc, p ∉ acc → (addIncludedPlugins acc included).count p = 1 := by
  induction included with
  | nil => cases hin
  | cons q qs ih =>
    intro acc hp
    unfold addIncludedPlugins
    simp only [List.foldl_cons]
    by_cases hpq : p = q
    · subst hpq
      simp only [hp, if_false]
      have hmem : p ∈ acc ++ [p] := List.mem_append_right _ (by simp)
      have := count_addIncludedPlugins_of_mem qs (acc ++ [p]) hmem
      simp only [addIncludedPlugins] at this ⊢
      rw [this, List.count_append]
      simp [List.count_eq_zero.mpr hp]
    · have hq : p ∈ qs := by
        rcases List.mem_cons.mp hin with h | h
        · exact absurd h hpq
        · exact h
      by_cases hqa : q ∈ acc
      · simp only [hqa, if_true]
        exact ih hq acc hp
      · simp only [hqa, if_false]
        have hnp : p ∉ acc ++ [q] := by
          simp [List.mem_append, hp, hpq]
        exact ih hq (acc ++ [q]) hnp

/-!
Claim theorems.
-/

/-- C7: for every parameter bag in which the mandatory manager address
(`manager_ip`) is absent, construction fails with a missing-mandatory-property
error naming that field, and no configuration model is produced (the
constructor raises before any defaulting or state mutation). -/
theorem c7_missing_manager_ip_rejected (env : InitEnv)
    (included_plugins : List String) (params : Params)
    (h : params.manager_ip = none) :
    daemonInit env included_plugins params
      = .error (.missingMandatoryProperty "manager_ip") := by
  have hm : validate_mandatory params
      = .error (.missingMandatoryProperty "manager_ip") := by
    unfold validate_mandatory MANDATORY_PARAMS
    simp [List.find?, paramContains, h]
  unfold daemonInit
  rw [hm]

/-- Witness for C7 at the empty parameter bag. -/
theorem c7_witness :
    ({} : Params).manager_ip = none
    ∧ daemonInit ⟨"usr", "gen", "/wd"⟩ ["script"] {}
        = .error (.missingMandatoryProperty "manager_ip") :=
  ⟨rfl, c7_missing_manager_ip_rejected ⟨"usr", "gen", "/wd"⟩ ["script"] {} rfl⟩

/-- C2 counterexample: `min_workers = 5` and `max_workers = 0` are both
present and both valid nonnegative integers with `min > max`, yet
`validate_optional` succeeds — the code only compares the two values when
both are truthy, and the integer 0 is falsy. -/
theorem c2_counterexample :
    (5 : ℤ) > 0
    ∧ validate_optional
        { min_workers := some (.vint 5), max_workers := some (.vint 0) }
        = .ok () := by
  constructor
  · decide
  · rfl

/-- C2 (amended): for parameter bags with both worker bounds present as valid
nonnegative integers, validation fails with an invalid-property error exactly
when both values are nonzero and `min > max`; it succeeds whenever
`min ≤ max`, and it also succeeds when `min > max` but `max = 0` (a falsy
bound skips the ordering check). -/
theorem c2_worker_bounds_validation (m M : ℤ) (hm : 0 ≤ m) (hM : 0 ≤ M) :
    (m ≠ 0 → M ≠ 0 → m > M →
      validate_optional
        { min_workers := some (.vint m), max_workers := some (.vint M) }
        = .error (.daemonPropertiesError
            ("min_workers cannot be greater than max_workers [min_workers="
              ++ toString m ++ ", max_workers=" ++ toString M ++ "]")))
    ∧ (m ≤ M →
      validate_optional
        { min_workers := some (.vint m), max_workers := some (.vint M) }
        = .ok ())
    ∧ (M = 0 →
      validate_optional
        { min_workers := some (.vint m), max_workers := some (.vint M) }
        = .ok ()) := by
  refine ⟨?_, ?_, ?_⟩
  · intro h0 h1 h2
    unfold validate_optional
    simp [pyGet, PyVal.truthy, pyIsDigit, pyToInt, pyStr, hm, hM, h0, h1, h2]
  · intro hle
    have h3 : ¬ (m > M) := by omega
    unfold validate_optional
    simp [pyGet, PyVal.truthy, pyIsDigit, pyToInt, pyStr, hm, hM, h3]
  · intro h0
    subst h0
    unfold validate_optional
    simp [pyGet, PyVal.truthy, pyIsDigit, pyToInt, pyStr, hm]

/-- Witness for C2 (amended) at `min = 3`, `max = 2` (error) and
`min = 1`, `max = 4` (success). -/
theorem c2_witness :
    ((0 : ℤ) ≤ 3 ∧ (0 : ℤ) ≤ 2 ∧ (3 : ℤ) ≠ 0 ∧ (2 : ℤ) ≠ 0 ∧ (3 : ℤ) > 2
      ∧ validate_optional
          { min_workers := some (.vint 3), max_workers := some (.vint 2) }
          = .error (.daemonPropertiesError
              ("min_workers cannot be greater than max_workers [min_workers="
                ++ toString (3 : ℤ) ++ ", max_workers=" ++ toString (2 : ℤ)
                ++ "]")))
    ∧ ((1 : ℤ) ≤ 4
      ∧ validate_optional
          { min_workers := some (.vint 1), max_workers := some (.vint 4) }
          = .ok ()) :=
  ⟨⟨by decide, by decide, by decide, by decide, by decide,
    (c2_worker_bounds_validation 3 2 (by decide) (by decide)).1
      (by decide) (by decide) (by decide)⟩,
   ⟨by decide,
    (c2_worker_bounds_validation 1 4 (by decide) (by decide)).2.1 (by decide)⟩⟩

/-- C10: every optional parameter supplied with a falsy value (0, empty
string, None) is replaced by its default during construction; in particular
`max_workers = 0` yields the default maximum worker count 5 and an empty
`name` yields the generated identity. -/
theorem c10_falsy_optional_defaults (env : InitEnv)
    (included_plugins : List String) (params : Params) (d : DaemonState)
    (h : daemonInit env included_plugins params = .ok d) :
    ((pyGet params.user).truthy = false → d.user = .vstr env.currentUser)
    ∧ ((pyGet params.broker_ip).truthy = false → d.broker_ip = d.manager_ip)
    ∧ ((pyGet params.broker_port).truthy = false → d.broker_port = .vint 5672)
    ∧ ((pyGet params.name).truthy = false → d.name = .vstr env.generatedName)
    ∧ ((pyGet params.queue).truthy = false →
        d.queue = .vstr (pyStr d.name ++ "-queue"))
    ∧ ((pyGet params.broker_url).truthy = false →
        d.broker_url = .vstr (brokerUrlFormat d.broker_ip d.broker_port))
    ∧ ((pyGet params.manager_port).truthy = false → d.manager_port = .vint 80)
    ∧ ((pyGet params.min_workers).truthy = false → d.min_workers = .vint 0)
    ∧ (params.max_workers = some (.vint 0) → d.max_workers = .vint 5)
    ∧ ((pyGet params.workdir).truthy = false → d.workdir = .vstr env.cwd)
    ∧ ((pyGet params.plugins).truthy = false →
        d.plugins = addIncludedPlugins [] included_plugins) := by
  rcases daemonInit_ok_inv env included_plugins params d h with
    ⟨hm, ho, plugins0, hp, hd⟩
  subst hd
  refine ⟨?_, ?_, ?_, ?_, ?_, ?_, ?_, ?_, ?_, ?_, ?_⟩ <;> intro ht
  · simp [pyOr, ht]
  · simp [pyOr, ht]
  · simp [pyOr, ht, BROKER_PORT]
  · simp [pyOr, ht]
  · simp [pyOr, ht]
  · simp [pyOr, ht]
  · simp [pyOr, ht, MANAGER_PORT]
  · simp [pyOr, ht, MIN_WORKERS]
  · simp [pyOr, pyGet, ht, PyVal.truthy, MAX_WORKERS]
  · simp [pyOr, ht]
  · have hps : plugins0 = [] := by
      simp [parsePlugins, ht] at hp
      exact hp
    subst hps
    simp

/-- Witness for C10: `max_workers = 0` yields 5 and an empty `name` yields the
generated identity, on a concrete parameter bag. -/
theorem c10_witness :
    ∃ d, daemonInit ⟨"usr", "gen", "/wd"⟩ ["script"]
        { manager_ip := some (.vstr "ip"), name := some (.vstr ""),
          max_workers := some (.vint 0) } = .ok d
      ∧ d.max_workers = .vint 5 ∧ d.name = .vstr "gen" := by
  have h : daemonInit ⟨"usr", "gen", "/wd"⟩ ["script"]
      { manager_ip := some (.vstr "ip"), name := some (.vstr ""),
        max_workers := some (.vint 0) }
      = .ok {
        manager_ip := .vstr "ip"
        user := .vstr "usr"
        broker_ip := .vstr "ip"
        broker_port := .vint 5672
        name := .vstr "gen"
        queue := .vstr "gen-queue"
        broker_url := .vstr "amqp://guest:guest@ip:5672//"
        manager_port := .vint 80
        min_workers := .vint 0
        max_workers := .vint 5
        workdir := .vstr "/wd"
        plugins := ["script"]
        extra_env_path := .vnone } := rfl
  have hc := c10_falsy_optional_defaults ⟨"usr", "gen", "/wd"⟩ ["script"]
    { manager_ip := some (.vstr "ip"), name := some (.vstr ""),
      max_workers := some (.vint 0) } _ h
  exact ⟨_, h, hc.2.2.2.2.2.2.2.2.1 rfl, hc.2.2.2.1 rfl⟩

/-- C8: a supplied truthy plugins parameter is accepted only as a string
(split on commas) or as a list (used as-is); any other truthy value makes the
constructor raise a ValueError, producing no configuration model and
appending no built-in plugins. -/
theorem c8_plugins_type_handling (env : InitEnv)
    (included_plugins : List String) (params : Params)
    (hm : validate_mandatory params = .ok ())
    (ho : validate_optional params = .ok ()) :
    (∀ n : ℤ, params.plugins = some (.vint n) → n ≠ 0 →
      daemonInit env included_plugins params = .error (.valueError
        ("Unexpected type of attribute plugins. Expected either str or list, but got: "
          ++ "int")))
    ∧ (∀ s : String, params.plugins = some (.vstr s) → s ≠ "" →
      (daemonInit env included_plugins params).map DaemonState.plugins
        = .ok (addIncludedPlugins (pySplitComma s) included_plugins))
    ∧ (∀ l : List String, params.plugins = some (.vlist l) →
      (daemonInit env included_plugins params).map DaemonState.plugins
        = .ok (addIncludedPlugins l included_plugins)) := by
  refine ⟨?_, ?_, ?_⟩
  · intro n hplug hn
    have hp : parsePlugins (pyGet params.plugins) = .error (.valueError
        ("Unexpected type of attribute plugins. Expected either str or list, but got: "
          ++ "int")) := by
      simp [parsePlugins, pyGet, hplug, PyVal.truthy, hn, pyTypeName]
    unfold daemonInit
    rw [hm, ho, hp]
  · intro s hplug hs
    have hp : parsePlugins (pyGet params.plugins) = .ok (pySplitComma s) := by
      simp [parsePlugins, pyGet, hplug, PyVal.truthy, hs]
    rw [daemonInit_eq_ok env included_plugins params _ hm ho hp]
    rfl
  · intro l hplug
    have hp : parsePlugins (pyGet params.plugins) = .ok l := by
      by_cases hl : l.isEmpty
      · have : l = [] := by simpa using hl
        subst this
        rw [hplug]
        rfl
      · simp [parsePlugins, pyGet, hplug, PyVal.truthy, hl]
    rw [daemonInit_eq_ok env included_plugins params _ hm ho hp]
    rfl

/-- Witness for C8: an integer plugins parameter is rejected; a comma string
is split. -/
theorem c8_witness :
    daemonInit ⟨"usr", "gen", "/wd"⟩ ["b"]
      { manager_ip := some (.vstr "ip"), plugins := some (.vint 7) }
      = .error (.valueError
        ("Unexpected type of attribute plugins. Expected either str or list, but got: "
          ++ "int"))
    ∧ (daemonInit ⟨"usr", "gen", "/wd"⟩ ["b"]
        { manager_ip := some (.vstr "ip"), plugins := some (.vstr "a,c") }).map
        DaemonState.plugins = .ok ["a", "c", "b"] := by
  constructor
  · exact (c8_plugins_type_handling ⟨"usr", "gen", "/wd"⟩ ["b"]
      { manager_ip := some (.vstr "ip"), plugins := some (.vint 7) }
      rfl rfl).1 7 rfl (by decide)
  · have := (c8_plugins_type_handling ⟨"usr", "gen", "/wd"⟩ ["b"]
      { manager_ip := some (.vstr "ip"), plugins := some (.vstr "a,c") }
      rfl rfl).2.1 "a,c" rfl (by decide)
    rw [this]
    rfl

/-- C5 counterexample: with built-in plugin list `["b"]` and caller plugins
`["b", "b"]` the resulting plugin set is `["b", "b"]`: the built-in plugin
appears twice, and the caller duplicates were not deduplicated. -/
theorem c5_counterexample :
    (daemonInit ⟨"usr", "gen", "/wd"⟩ ["b"]
        { manager_ip := some (.vstr "ip"),
          plugins := some (.vlist ["b", "b"]) }).map DaemonState.plugins
      = .ok ["b", "b"]
    ∧ List.count "b" ["b", "b"] = 2 := ⟨rfl, rfl⟩

/-- C5 (amended): after construction the plugin set contains every built-in
plugin at least once; a built-in plugin not supplied by the caller appears
exactly once; the caller-supplied list is preserved verbatim (order and
multiplicity, duplicates included) as the leading segment of the plugin set.
Caller-supplied duplicates are not removed. -/
theorem c5_builtin_plugins_membership (env : InitEnv)
    (included_plugins : List String) (params : Params) (d : DaemonState)
    (callerPlugins : List String)
    (hplug : params.plugins = some (.vlist callerPlugins))
    (h : daemonInit env included_plugins params = .ok d) :
    (∀ p, p ∈ included_plugins → p ∈ d.plugins)
    ∧ (∃ t, d.plugins = callerPlugins ++ t)
    ∧ (∀ p, p ∈ included_plugins → p ∉ callerPlugins →
        d.plugins.count p = 1) := by
  rcases daemonInit_ok_inv env included_plugins params d h with
    ⟨hm, ho, plugins0, hp, hd⟩
  have hps : plugins0 = callerPlugins := by
    by_cases hl : callerPlugins.isEmpty
    · have : callerPlugins = [] := by simpa using hl
      subst this
      rw [hplug] at hp
      simpa [parsePlugins, pyGet, PyVal.truthy] using hp.symm
    · rw [hplug] at hp
      simp [parsePlugins, pyGet, PyVal.truthy, hl] at hp
      exact hp.symm
  rw [hps] at hd
  subst hd
  refine ⟨?_, ?_, ?_⟩
  · intro p hpin
    exact mem_addIncludedPlugins included_plugins hpin callerPlugins
  · exact addIncludedPlugins_extends included_plugins callerPlugins
  · intro p h1 h2
    exact count_addIncludedPlugins_of_new included_plugins h1 callerPlugins h2

/-- Witness for C5 (amended): built-in `"b"` joins caller plugins `["a"]`
exactly once. -/
theorem c5_witness :
    ∃ d, daemonInit ⟨"usr", "gen", "/wd"⟩ ["b"]
        { manager_ip := some (.vstr "ip"), plugins := some (.vlist ["a"]) }
        = .ok d
      ∧ "b" ∈ d.plugins ∧ (∃ t, d.plugins = ["a"] ++ t)
      ∧ d.plugins.count "b" = 1 := by
  have h : daemonInit ⟨"usr", "gen", "/wd"⟩ ["b"]
      { manager_ip := some (.vstr "ip"), plugins := some (.vlist ["a"]) }
      = .ok {
        manager_ip := .vstr "ip"
        user := .vstr "usr"
        broker_ip := .vstr "ip"
        broker_port := .vint 5672
        name := .vstr "gen"
        queue := .vstr "gen-queue"
        broker_url := .vstr "amqp://guest:guest@ip:5672//"
        manager_port := .vint 80
        min_workers := .vint 0
        max_workers := .vint 5
        workdir := .vstr "/wd"
        plugins := ["a", "b"]
        extra_env_path := .vnone } := rfl
  have hc := c5_builtin_plugins_membership ⟨"usr", "gen", "/wd"⟩ ["b"]
    { manager_ip := some (.vstr "ip"), plugins := some (.vlist ["a"]) }
    _ ["a"] rfl h
  exact ⟨_, h, hc.1 "b" (by simp), hc.2.1, hc.2.2 "b" (by simp) (by simp)⟩

/-- C6: calling `register` twice with the same plugin name (both collaborator
calls succeeding, starting from a state holding that name at most once)
leaves the plugin set containing the name exactly once, while the persistence
collaborator receives exactly one save call per registration attempt — two in
total — each recording the plugin set current at the time of the save. -/
theorem c6_register_twice_once_in_set_two_saves (env : RegisterEnv)
    (plugin : String) (s : RegState) (tasks : List String)
    (hl : env.list_plugin_files plugin = .ok tasks)
    (hu : env.update_includes tasks = .ok ())
    (hcount : s.plugins.count plugin ≤ 1) :
    ((register env plugin (register env plugin s).1).1).plugins.count plugin
      = 1
    ∧ (register env plugin s).1.saves
        = s.saves ++ [(register env plugin s).1.plugins]
    ∧ ((register env plugin (register env plugin s).1).1).saves
        = s.saves ++ [(register env plugin s).1.plugins,
            ((register env plugin (register env plugin s).1).1).plugins]
    ∧ (register env plugin s).2 = none
    ∧ (register env plugin (register env plugin s).1).2 = none := by
  simp only [register, hl, hu]
  by_cases hmem : plugin ∈ s.plugins
  · have hone : s.plugins.count plugin = 1 := by
      have : 0 < s.plugins.count plugin := List.count_pos_iff.mpr hmem
      omega
    simp [hmem, hone]
  · have hzero : s.plugins.count plugin = 0 := List.count_eq_zero.mpr hmem
    have hmem' : plugin ∈ s.plugins ++ [plugin] :=
      List.mem_append_right _ (by simp)
    simp [hmem, hmem', List.count_append, hzero]

/-- Witness for C6 on a fresh state with a trivially succeeding
environment. -/
theorem c6_witness :
    (RegisterEnv.mk (fun _ => .ok ["mod"]) (fun _ => .ok ())).list_plugin_files
        "p" = .ok ["mod"]
    ∧ ((register ⟨fun _ => .ok ["mod"], fun _ => .ok ()⟩ "p"
        (register ⟨fun _ => .ok ["mod"], fun _ => .ok ()⟩ "p"
          ⟨[], []⟩).1).1).plugins.count "p" = 1
    ∧ ((register ⟨fun _ => .ok ["mod"], fun _ => .ok ()⟩ "p"
        (register ⟨fun _ => .ok ["mod"], fun _ => .ok ()⟩ "p"
          ⟨[], []⟩).1).1).saves = [["p"], ["p"]] := by
  have hc := c6_register_twice_once_in_set_two_saves
    ⟨fun _ => .ok ["mod"], fun _ => .ok ()⟩ "p" ⟨[], []⟩ ["mod"]
    rfl rfl (by simp)
  exact ⟨rfl, hc.1, by rw [hc.2.2.1]; rfl⟩

/-- C9: `register` performs the plugin-module listing and the
`update_includes` call before mutating the plugin set; when either raises,
the exception propagates with the plugin set unchanged and no save call
issued. -/
theorem c9_register_atomic_on_error (env : RegisterEnv) (plugin : String)
    (s : RegState) :
    (∀ e, env.list_plugin_files plugin = .error e →
      register env plugin s = (s, some e))
    ∧ (∀ tasks e, env.list_plugin_files plugin = .ok tasks →
      env.update_includes tasks = .error e →
      register env plugin s = (s, some e)) := by
  constructor
  · intro e he
    simp only [register, he]
  · intro tasks e hl hu
    simp only [register, hl, hu]

/-- Witness for C9: a failing module listing and a failing includes update
both leave the state untouched. -/
theorem c9_witness :
    register ⟨fun _ => .error "no such plugin", fun _ => .ok ()⟩ "p"
        ⟨["q"], [["q"]]⟩ = (⟨["q"], [["q"]]⟩, some "no such plugin")
    ∧ register ⟨fun _ => .ok ["mod"], fun _ => .error "includes failed"⟩ "p"
        ⟨["q"], [["q"]]⟩ = (⟨["q"], [["q"]]⟩, some "includes failed") :=
  ⟨(c9_register_atomic_on_error ⟨fun _ => .error "no such plugin",
      fun _ => .ok ()⟩ "p" ⟨["q"], [["q"]]⟩).1 "no such plugin" rfl,
   (c9_register_atomic_on_error ⟨fun _ => .ok ["mod"],
      fun _ => .error "includes failed"⟩ "p" ⟨["q"], [["q"]]⟩).2
     ["mod"] "includes failed" rfl rfl⟩

/-- C1 counterexample: with `timeout = 0` (liveness available from the very
first probe, no queue cleanup, no crash dump) `start` performs zero liveness
probes, not one: the loop condition `time.time() < end_time` is already false
before the first probe, so it raises the startup timeout without probing. -/
theorem c1_counterexample :
    start {} ⟨fun _ => true, fun _ => 0, 0⟩ "agent" 1 0 false none 5
      = some { outcome := .startupTimeout 0 "agent", probes := 0, sleeps := 0,
               crashChecked := true, crashDumpAfter := none,
               startCommandRan := true }
    ∧ (0 : ℕ) ≠ 1 := ⟨rfl, by decide⟩

/-- C1 (amended): for every call to `start` with `timeout ≤ 0` (and the queue
cleanup either skipped or succeeding), zero liveness probes are performed and
no sleep occurs, because the deadline condition is checked before probing; the
crash dump is consulted and, when absent, a start-timeout error carrying the
timeout and the identity is raised. -/
theorem c1_nonpositive_timeout_no_probe (aenv : AmqpEnv) (env : StartEnv)
    (name : String) (interval : ℕ) (timeout : ℤ) (dq : Bool)
    (crashDump : Option String) (fuel : ℕ)
    (ht : timeout ≤ 0) (hf : 0 < fuel)
    (hq : dq = false ∨ (delete_amqp_queues aenv).raised = none) :
    ∃ run, start aenv env name interval timeout dq crashDump fuel = some run
      ∧ run.probes = 0 ∧ run.sleeps = 0 ∧ run.startCommandRan = true
      ∧ (crashDump = none → run.outcome = .startupTimeout timeout name)
      ∧ (∀ d, crashDump = some d → run.outcome = .daemonException d) := by
  have hclean : (if dq then (delete_amqp_queues aenv).raised else none)
      = none := by
    rcases hq with h | h
    · simp [h]
    · simp [h]
  obtain ⟨f, rfl⟩ : ∃ f, fuel = f + 1 := ⟨fuel - 1, by omega⟩
  have hgap : ¬ ((env.initialGap : ℤ) < timeout) := by
    have : (0 : ℤ) ≤ (env.initialGap : ℤ) := Int.natCast_nonneg _
    omega
  have hloop : startLoop env interval (0 + timeout) (env.initialGap : ℤ) 0
      (f + 1) = some (false, 0, 0) := by
    unfold startLoop
    simp [hgap]
  cases crashDump with
  | none =>
    have hstart : start aenv env name interval timeout dq none (f + 1)
        = some { outcome := .startupTimeout timeout name, probes := 0,
                 sleeps := 0, crashChecked := true, crashDumpAfter := none,
                 startCommandRan := true } := by
      simp only [start, hclean, hloop, verify_no_celery_error]
    exact ⟨_, hstart, rfl, rfl, rfl, fun _ => rfl, fun d hd => by cases hd⟩
  | some d0 =>
    have hstart : start aenv env name interval timeout dq (some d0) (f + 1)
        = some { outcome := .daemonException d0, probes := 0,
                 sleeps := 0, crashChecked := true, crashDumpAfter := none,
                 startCommandRan := true } := by
      simp only [start, hclean, hloop, verify_no_celery_error]
    refine ⟨_, hstart, rfl, rfl, rfl, ?_, ?_⟩
    · intro hd
      cases hd
    · intro d hd
      cases hd
      rfl

/-- Witness for C1 (amended) at `timeout = -3` with no crash dump. -/
theorem c1_witness :
    (-3 : ℤ) ≤ 0
    ∧ ∃ run, start {} ⟨fun _ => true, fun _ => 0, 0⟩ "agent" 2 (-3) false
        none 1 = some run
      ∧ run.probes = 0 ∧ run.sleeps = 0
      ∧ run.outcome = .startupTimeout (-3) "agent" := by
  refine ⟨by decide, ?_⟩
  rcases c1_nonpositive_timeout_no_probe {} ⟨fun _ => true, fun _ => 0, 0⟩
      "agent" 2 (-3) false none 1 (by decide) (by decide) (Or.inl rfl) with
    ⟨run, h, hp, hs, _, hout, _⟩
  exact ⟨run, h, hp, hs, hout rfl⟩

/-- C3 counterexample: a failure raised by the broker while deleting the
queue propagates out of the cleanup and aborts `start` before the start
command is issued — it is not downgraded to a warning. -/
theorem c3_counterexample :
    (delete_amqp_queues { queueDeleteErr := some "broker down" }).raised
      = some "broker down"
    ∧ start { queueDeleteErr := some "broker down" }
        ⟨fun _ => true, fun _ => 0, 0⟩ "agent" 1 10 true none 5
      = some { outcome := .amqpError "broker down", probes := 0, sleeps := 0,
               crashChecked := false, crashDumpAfter := none,
               startCommandRan := false } := ⟨rfl, rfl⟩

/-- C3 (amended): during queue cleanup only a failure to close the broker
client is downgraded to a warning (when the client was created, the close
warning is logged and nothing propagates if the deletions succeeded); a
failure raised by the channel opening or either queue deletion propagates and
aborts `start` with no start command issued. -/
theorem c3_cleanup_only_close_is_best_effort :
    (∀ aenv : AmqpEnv, aenv.createErr = none → aenv.channelErr = none →
      aenv.queueDeleteErr = none → aenv.pidboxDeleteErr = none →
      (delete_amqp_queues aenv).raised = none)
    ∧ (∀ (aenv : AmqpEnv) (e : String), aenv.createErr = none →
      aenv.closeErr = some e →
      (delete_amqp_queues aenv).warnings
        = ["Failed closing amqp client: " ++ e])
    ∧ (∀ (aenv : AmqpEnv) (env : StartEnv) (name : String) (interval : ℕ)
        (timeout : ℤ) (crashDump : Option String) (fuel : ℕ) (e : String),
      (delete_amqp_queues aenv).raised = some e →
      start aenv env name interval timeout true crashDump fuel
        = some { outcome := .amqpError e, probes := 0, sleeps := 0,
                 crashChecked := false, crashDumpAfter := crashDump,
                 startCommandRan := false }) := by
  refine ⟨?_, ?_, ?_⟩
  · intro aenv h1 h2 h3 h4
    simp [delete_amqp_queues, h1, h2, h3, h4]
  · intro aenv e h0 hce
    simp [delete_amqp_queues, h0, hce]
  · intro aenv env name interval timeout crashDump fuel e he
    simp only [start, if_true, he]

/-- Witness for C3 (amended): a close failure alone yields only a warning,
while a queue-deletion failure aborts a concrete `start`. -/
theorem c3_witness :
    (delete_amqp_queues { closeErr := some "conn reset" }).raised = none
    ∧ (delete_amqp_queues { closeErr := some "conn reset" }).warnings
        = ["Failed closing amqp client: " ++ "conn reset"]
    ∧ start { channelErr := some "no channel" } ⟨fun _ => false, fun _ => 0, 0⟩
        "agent" 1 5 true none 4
      = some { outcome := .amqpError "no channel", probes := 0, sleeps := 0,
               crashChecked := false, crashDumpAfter := none,
               startCommandRan := false } :=
  ⟨c3_cleanup_only_close_is_best_effort.1 { closeErr := some "conn reset" }
      rfl rfl rfl rfl,
   c3_cleanup_only_close_is_best_effort.2.1 { closeErr := some "conn reset" }
      "conn reset" rfl rfl,
   c3_cleanup_only_close_is_best_effort.2.2 { channelErr := some "no channel" }
      ⟨fun _ => false, fun _ => 0, 0⟩ "agent" 1 5 none 4 "no channel" rfl⟩

/-- C4: whenever the polling window of `start` elapses with liveness never
observed (the crash-dump consultation happens exactly then), a present crash
dump makes `start` raise a daemon-execution-failed error whose payload is the
dump contents, deleting the dump file; an absent dump makes it raise a
start-timeout error carrying the identity and the timeout value.  The crash
dump is never consulted when `start` returns successfully, nor before the
start command has been issued. -/
theorem c4_crash_dump_on_timeout_only (aenv : AmqpEnv) (env : StartEnv)
    (name : String) (interval : ℕ) (timeout : ℤ) (dq : Bool)
    (crashDump : Option String) (fuel : ℕ) (run : StartRun)
    (h : start aenv env name interval timeout dq crashDump fuel = some run) :
    (run.outcome = .success →
      run.crashChecked = false ∧ run.crashDumpAfter = crashDump)
    ∧ (run.crashChecked = true →
        (∀ d, crashDump = some d →
          run.outcome = .daemonException d ∧ run.crashDumpAfter = none)
        ∧ (crashDump = none → run.outcome = .startupTimeout timeout name))
    ∧ (run.startCommandRan = false → run.crashChecked = false)
    ∧ (((∃ e, run.outcome = .daemonException e)
        ∨ (∃ t n, run.outcome = .startupTimeout t n)) →
      run.crashChecked = true) := by
  unfold start at h
  rcases hcl : (if dq then (delete_amqp_queues aenv).raised else none)
    with _ | e <;> rw [hcl] at h
  · rcases hl : startLoop env interval (0 + timeout) (env.initialGap : ℤ)
        0 fuel with _ | res <;> rw [hl] at h
    · cases h
    · obtain ⟨b, p, s⟩ := res
      cases b
      · cases crashDump with
        | none =>
          simp only [verify_no_celery_error] at h
          cases h
          simp
        | some d0 =>
          simp only [verify_no_celery_error] at h
          cases h
          simp
      · cases h
        simp
  · cases h
    simp

/-- Witness for C4: a concrete timed-out `start` with a crash dump raises the
daemon-execution error carrying the dump and deletes the file. -/
theorem c4_witness :
    ∃ run, start {} ⟨fun _ => false, fun _ => 0, 0⟩ "agent" 1 1 false
        (some "boom") 3 = some run
      ∧ run.outcome = .daemonException "boom" ∧ run.crashDumpAfter = none := by
  have h : start {} ⟨fun _ => false, fun _ => 0, 0⟩ "agent" 1 1 false
      (some "boom") 3
      = some { outcome := .daemonException "boom", probes := 1, sleeps := 1,
               crashChecked := true, crashDumpAfter := none,
               startCommandRan := true } := rfl
  have hc := c4_crash_dump_on_timeout_only {} ⟨fun _ => false, fun _ => 0, 0⟩
    "agent" 1 1 false (some "boom") 3 _ h
  exact ⟨_, h, ((hc.2.1 rfl).1 "boom" rfl).1, ((hc.2.1 rfl).1 "boom" rfl).2⟩

end CloudifyAgent
